import Mathlib

/-!
Shallow embedding of the ANT+ host-side driver stack (package `ant`):
the monkey-patched USB driver (`monkeypatches.py`), the transceiver
device and node constructors, and the setup/teardown glue plus data
schemas of `ant.py`.  Machine integers are modelled as `Nat`; Python
exceptions become `Option`/`Except` error values; sequences of attempted
side effects become explicit event traces.
-/

namespace Ant

/-! ## USB primitives (pyusb `usb.util` constants used by the driver) -/

/-- Constant `usb.util.ENDPOINT_IN` (direction bit set). -/
def ENDPOINT_IN : Nat := 0x80

/-- Constant `usb.util.ENDPOINT_OUT` (direction bit clear). -/
def ENDPOINT_OUT : Nat := 0x00

/-- Constant `usb.util.ENDPOINT_TYPE_BULK` (transfer-type field of `bmAttributes`). -/
def ENDPOINT_TYPE_BULK : Nat := 0x02

/-- Function `usb.util.endpoint_direction`: masks the direction bit of an
endpoint address. -/
def endpoint_direction (bEndpointAddress : Nat) : Nat :=
  bEndpointAddress &&& 0x80

/-- Function `usb.util.endpoint_type`: masks the transfer-type field of
`bmAttributes`. -/
def endpoint_type (bmAttributes : Nat) : Nat :=
  bmAttributes &&& 0x03

/-- A USB endpoint descriptor: address (bit 7 is the direction) and
attributes (low two bits are the transfer type). -/
structure Endpoint where
  bEndpointAddress : Nat
  bmAttributes : Nat
deriving DecidableEq, Repr

/-- A USB interface descriptor: the ordered list of its endpoint
descriptors, as iterated by `usb.util.find_descriptor`. -/
structure Interface where
  endpoints : List Endpoint
deriving DecidableEq, Repr

/-- Function `usb.util.find_descriptor` restricted to endpoint matching on
one interface: returns the first endpoint satisfying `custom_match`. -/
def find_descriptor (intf : Interface) (custom_match : Endpoint → Bool) : Option Endpoint :=
  intf.endpoints.find? custom_match

/-- A `usb.core.Device`: vendor and product ids, plus interface `(0, 0)` of
the active configuration (the only interface the driver touches:
`cfg[(0, 0)]`). -/
structure Device where
  idVendor : Nat
  idProduct : Nat
  interface00 : Interface
deriving DecidableEq, Repr

/-! ## Monkey-patched `USBDriver` (`monkeypatches.py`) -/

/-- State of the patched `openant.base.driver` `USBDriver`: the injected
`usb.core.Device` and the `_in`/`_out` endpoint slots (both `None` until
`open` assigns them). -/
structure USBDriver where
  dev : Device
  _in : Option Endpoint
  _out : Option Endpoint
deriving DecidableEq, Repr

/-- The patched `__init__`: stores the injected device and nulls both
endpoint slots.  No discovery happens here. -/
def USBDriver.init (device : Device) : USBDriver :=
  { dev := device, _in := none, _out := none }

/-- The patched `find(self, **kwargs)`: ignores its keyword arguments and
returns `True` unconditionally (the device was injected at construction). -/
def USBDriver.find (_d : USBDriver) (_kwargs : List (String × Nat)) : Bool :=
  true

/-- Property `ID_VENDOR`: reads `self.dev.idVendor`. -/
def USBDriver.ID_VENDOR (d : USBDriver) : Nat := d.dev.idVendor

/-- Property `ID_PRODUCT`: reads `self.dev.idProduct`. -/
def USBDriver.ID_PRODUCT (d : USBDriver) : Nat := d.dev.idProduct

/-- The `custom_match` lambda passed to `find_descriptor` for `_out`:
direction equals `ENDPOINT_OUT`.  The transfer type is not inspected. -/
def outMatch (e : Endpoint) : Bool :=
  endpoint_direction e.bEndpointAddress == ENDPOINT_OUT

/-- The `custom_match` lambda passed to `find_descriptor` for `_in`:
direction equals `ENDPOINT_IN`.  The transfer type is not inspected. -/
def inMatch (e : Endpoint) : Bool :=
  endpoint_direction e.bEndpointAddress == ENDPOINT_IN

/-- How `USBDriver.open` can raise.  When `find_descriptor` returns `None`
the very next statement evaluates `self._out.bEndpointAddress`
(resp. `self._in.bEndpointAddress`) inside a log call, raising
`AttributeError` on `None`; the final `assert` would raise
`AssertionError` but is unreachable because the log line fires first. -/
inductive OpenError
  | attributeErrorNone
  | assertionError
deriving DecidableEq, Repr

/-- The patched `open`: after `set_configuration`/`reset` (external side
effects on the physical device, no driver-state change), looks up
interface `(0, 0)` and assigns `_out` then `_in` to the FIRST endpoint of
each direction, with no bulk-type filter.  Returns the updated driver
state together with the raised error, if any; assignments made before a
raise are kept, as in Python. -/
def USBDriver.open (d : USBDriver) : USBDriver × Option OpenError :=
  let intf := d.dev.interface00
  let out := find_descriptor intf outMatch
  let d1 : USBDriver := { d with _out := out }
  match out with
  | none => (d1, some OpenError.attributeErrorNone)
  | some _ =>
    let inn := find_descriptor intf inMatch
    let d2 : USBDriver := { d1 with _in := inn }
    match inn with
    | none => (d2, some OpenError.attributeErrorNone)
    | some _ => (d2, none)

/-- The patched `close`: logs "Skipping USB Device Close: not supported in
Monkey Patch" and returns.  No state change, nothing released, never
raises. -/
def USBDriver.close (d : USBDriver) : USBDriver × Option Unit :=
  (d, none)

/-! ## Bulk-endpoint predicates (from the spec's wording, for comparison
with what `open` actually selects) -/

/-- Interface has at least one bulk IN endpoint. -/
def Interface.hasBulkIn (intf : Interface) : Bool :=
  intf.endpoints.any fun e =>
    endpoint_direction e.bEndpointAddress == ENDPOINT_IN &&
    endpoint_type e.bmAttributes == ENDPOINT_TYPE_BULK

/-- Interface has at least one bulk OUT endpoint. -/
def Interface.hasBulkOut (intf : Interface) : Bool :=
  intf.endpoints.any fun e =>
    endpoint_direction e.bEndpointAddress == ENDPOINT_OUT &&
    endpoint_type e.bmAttributes == ENDPOINT_TYPE_BULK

/-- `e` is the first element of `l` satisfying `p`: `p` holds of `e`, and
`e` splits `l` with only non-matching elements before it. -/
def firstSuchThat (p : Endpoint → Bool) (l : List Endpoint) (e : Endpoint) : Prop :=
  p e = true ∧ ∃ l1 l2, l = l1 ++ e :: l2 ∧ ∀ x ∈ l1, p x = false

/-! ## Concrete USB devices used as witnesses and counterexamples -/

/-- A bulk OUT endpoint at address 1. -/
def bulkOutEp : Endpoint := { bEndpointAddress := 0x01, bmAttributes := 0x02 }

/-- A bulk IN endpoint at address 0x81. -/
def bulkInEp : Endpoint := { bEndpointAddress := 0x81, bmAttributes := 0x02 }

/-- An interrupt OUT endpoint at address 1. -/
def intrOutEp : Endpoint := { bEndpointAddress := 0x01, bmAttributes := 0x03 }

/-- An interrupt IN endpoint at address 0x81. -/
def intrInEp : Endpoint := { bEndpointAddress := 0x81, bmAttributes := 0x03 }

/-- A second bulk OUT endpoint, at address 2. -/
def bulkOutEp2 : Endpoint := { bEndpointAddress := 0x02, bmAttributes := 0x02 }

/-- The ANT USB-M transceiver shape: one bulk OUT and one bulk IN endpoint. -/
def bulkDevice : Device :=
  { idVendor := 0x0fcf, idProduct := 0x1009, interface00 := ⟨[bulkOutEp, bulkInEp]⟩ }

/-- A device whose interface `(0, 0)` has endpoints of each direction but
none of bulk type. -/
def interruptDevice : Device :=
  { idVendor := 0x0fcf, idProduct := 0x1009, interface00 := ⟨[intrOutEp, intrInEp]⟩ }

/-- A device whose first OUT endpoint is interrupt-type while a bulk OUT
endpoint exists later on the interface. -/
def mixedDevice : Device :=
  { idVendor := 0x0fcf, idProduct := 0x1009,
    interface00 := ⟨[intrOutEp, bulkOutEp2, bulkInEp]⟩ }

/-- A device whose interface `(0, 0)` has no endpoints at all. -/
def emptyDevice : Device :=
  { idVendor := 0x0fcf, idProduct := 0x1009, interface00 := ⟨[]⟩ }

/-! ## `AntTransceiverDevice` (the device pump, `monkeypatches.py`) -/

/-- Observable state of an `AntTransceiverDevice` after a successful
`__init__`: the driver (post-`open`), the `_running` flag, and whether
`reset_system` was issued.  Queues, buffers and condition variables are
thread-plumbing with no protocol-visible content at construction time. -/
structure AntTransceiverDevice where
  driver : USBDriver
  running : Bool
  resetSent : Bool
deriving DecidableEq, Repr

/-- `AntTransceiverDevice.__init__`: initialises queues/buffers, sets
`self._running = True`, then calls `self._driver.open()`; only if `open`
returns does it start the single worker thread and call `reset_system`.
Result: the constructed state (or the propagated open error) paired with
the number of worker threads started. -/
def AntTransceiverDevice.init (driver : USBDriver) :
    Except OpenError AntTransceiverDevice × Nat :=
  let running := true
  match USBDriver.open driver with
  | (_, some e) => (Except.error e, 0)
  | (d', none) => (Except.ok { driver := d', running := running, resetSent := true }, 1)

/-! ## `AntTransceiver` (the node protocol engine, `monkeypatches.py`) -/

/-- State of an `AntTransceiver` (patched `openant.easy.node.Node`) as set
by its `__init__`.  Channels are tracked by channel number here. -/
structure AntTransceiver where
  serial : Option Nat
  ant_version : Option String
  max_networks : Nat
  max_channels : Nat
  channels : List Nat
  max_sensorcore_channels : Nat
  ant : AntTransceiverDevice
  running : Bool
deriving DecidableEq, Repr

/-- `AntTransceiver.__init__`: fixes `max_networks = 8` and
`max_channels = 8`, empties the channel list, stores the device as
`self.ant`, sets `_running = True` and starts the easy-node worker. -/
def AntTransceiver.init (ant : AntTransceiverDevice) : AntTransceiver :=
  { serial := none, ant_version := none, max_networks := 8, max_channels := 8,
    channels := [], max_sensorcore_channels := 0, ant := ant, running := true }

/-- The `transceiver` property: returns `self.ant`; being a plain read it
leaves the node state unchanged (returned as the second component). -/
def AntTransceiver.transceiver (n : AntTransceiver) : AntTransceiverDevice × AntTransceiver :=
  (n.ant, n)

/-! ## Teardown and setup glue (`ant.py`) -/

/-- Outcome of one externally-performed cleanup call (`stop` or `close`):
either it returned normally or it raised with a message. -/
inductive StepResult
  | ok
  | raises (msg : String)
deriving DecidableEq, Repr

/-- The two cleanup steps `teardown_transceiver` may attempt, in source
order. -/
inductive TeardownStep
  | stopNode
  | closeUSB
deriving DecidableEq, Repr

/-- `teardown_transceiver(usb_driver, transceiver)`: arguments are modelled
by the outcome their cleanup call would have (`none` for a `None`
argument).  If `transceiver` is not `None`, attempt `transceiver.stop()`
and on exception append "Failed to stop the ANT+ Node: ..." to the error
accumulator; then, regardless, if `usb_driver` is not `None`, attempt
`usb_driver.close()` and on exception append "Failed to close the USB
Device: ...".  Finally `if error: raise RuntimeError(error)` — modelled as
`some` of the accumulated messages when any step failed.  Returns the list
of attempted steps in order, paired with the raised error. -/
def teardown_transceiver (usb_driver : Option StepResult)
    (transceiver : Option StepResult) : List TeardownStep × Option (List String) :=
  let (steps1, errs1) :=
    match transceiver with
    | none => ([], [])
    | some StepResult.ok => ([TeardownStep.stopNode], [])
    | some (StepResult.raises m) =>
        ([TeardownStep.stopNode], ["Failed to stop the ANT+ Node: " ++ m])
  let (steps2, errs2) :=
    match usb_driver with
    | none => ([], [])
    | some StepResult.ok => ([TeardownStep.closeUSB], [])
    | some (StepResult.raises m) =>
        ([TeardownStep.closeUSB], ["Failed to close the USB Device: " ++ m])
  let errors := errs1 ++ errs2
  (steps1 ++ steps2, if errors = [] then none else some errors)

/-- The error messages `teardown_transceiver` accumulates for the
`usb_driver.close()` step, given that call's outcome. -/
def closeStepErrors (c : StepResult) : List String :=
  match c with
  | StepResult.ok => []
  | StepResult.raises m => ["Failed to close the USB Device: " ++ m]

/-- Events on the `setup_transceiver` success/failure paths, in source
order: USB device search, driver construction, device-pump construction,
the `set_network_key(0x00, ANTPLUS_NETWORK_KEY)` call, the nested
teardown attempt, raising `RuntimeError`, and returning the pair. -/
inductive SetupEvent
  | findDevice
  | createDriver
  | createDevice
  | setNetworkKey (slot : Nat)
  | teardown
  | raiseErr
  | ret
deriving DecidableEq, Repr

/-- `setup_transceiver(usb_id, libusb1_path)`: each Boolean says whether
the corresponding sub-step succeeds (device lookup, `USBDriver`
construction, `AntTransceiver(AntTransceiverDevice(...))` construction,
`set_network_key`).  On the first failure inside the try block the nested
teardown runs and `RuntimeError` is raised; only when every step succeeds
does the function return the `(usb_driver, transceiver)` pair.  Result:
the trace of attempted events and whether the pair was returned. -/
def setup_transceiver (findOk driverOk devOk keyOk : Bool) :
    List SetupEvent × Bool :=
  if !findOk then ([SetupEvent.findDevice, SetupEvent.raiseErr], false)
  else if !driverOk then
    ([SetupEvent.findDevice, SetupEvent.createDriver,
      SetupEvent.teardown, SetupEvent.raiseErr], false)
  else if !devOk then
    ([SetupEvent.findDevice, SetupEvent.createDriver, SetupEvent.createDevice,
      SetupEvent.teardown, SetupEvent.raiseErr], false)
  else if !keyOk then
    ([SetupEvent.findDevice, SetupEvent.createDriver, SetupEvent.createDevice,
      SetupEvent.setNetworkKey 0x00, SetupEvent.teardown, SetupEvent.raiseErr], false)
  else
    ([SetupEvent.findDevice, SetupEvent.createDriver, SetupEvent.createDevice,
      SetupEvent.setNetworkKey 0x00, SetupEvent.ret], true)

/-- Recogniser for `setNetworkKey` events. -/
def isSetKey (e : SetupEvent) : Bool :=
  match e with
  | SetupEvent.setNetworkKey _ => true
  | _ => false

/-- Every `setNetworkKey` event uses slot 0, which lies in the valid 0–7
range; other events pass vacuously. -/
def setKeySlotValid (e : SetupEvent) : Bool :=
  match e with
  | SetupEvent.setNetworkKey s => s == 0 && decide (s ≤ 7)
  | _ => true

/-! ## Scanner setup and teardown (`ant.py`) -/

/-- An `openant.devices.scanner.Scanner` as far as this glue observes it:
the node it scans on, whether each optional callback was attached, and the
outcome its `close_channel()` call would have (external behaviour). -/
structure Scanner where
  node : AntTransceiver
  on_found_set : Bool
  on_update_set : Bool
  closeResult : StepResult
deriving DecidableEq, Repr

/-- `setup_scanner(transceiver, callbacks)` success path: constructs
`Scanner(transceiver)`, attaches `on_found`/`on_update` when present in
`callbacks` — and then falls off the end of the function: there is no
`return` statement, so the Python function returns `None`.  Result: the
constructed (discarded) local scanner, paired with the function's actual
return value. -/
def setup_scanner (transceiver : AntTransceiver)
    (cb_found cb_update : Bool) (closeBehaviour : StepResult) :
    Scanner × Option Scanner :=
  let client_scanner : Scanner :=
    { node := transceiver, on_found_set := cb_found, on_update_set := cb_update,
      closeResult := closeBehaviour }
  (client_scanner, none)

/-- `teardown_scanner(client_scanner)`: returns immediately when the
argument is `None`; otherwise calls `close_channel()` and raises
`RuntimeError` with "Failed to stop the ANT Client Scanner: ..." when that
call raised. -/
def teardown_scanner (client_scanner : Option Scanner) : Except (List String) Unit :=
  match client_scanner with
  | none => Except.ok ()
  | some s =>
    match s.closeResult with
    | StepResult.ok => Except.ok ()
    | StepResult.raises m =>
        Except.error ["Failed to stop the ANT Client Scanner: " ++ m]

/-! ## Data schemas (`ant.py`) -/

/-- `Metadata.Time`: {unit: "ns", datum, diff}. -/
structure Metadata.Time where
  unit : String
  datum : Int
  diff : Int
deriving DecidableEq, Repr

/-- `Metadata`: {time}. -/
structure Metadata where
  time : Metadata.Time
deriving DecidableEq, Repr

/-- `openant.devices.heart_rate.HeartRateData`, the fields
`HeartRateSpec.from_data` reads.  The beat-time floats carry no arithmetic
here and are modelled as rationals. -/
structure HeartRateData where
  heart_rate : Nat
  beat_count : Nat
  beat_time : Rat
  previous_heart_beat_time : Rat
deriving DecidableEq, Repr

/-- `HeartRateSpec.BeatTime`: {cur, prev}. -/
structure HeartRateSpec.BeatTime where
  cur : Rat
  prev : Rat
deriving DecidableEq, Repr

/-- `HeartRateSpec.Data`: {bpm, beat, time}. -/
structure HeartRateSpec.Data where
  bpm : Nat
  beat : Nat
  time : HeartRateSpec.BeatTime
deriving DecidableEq, Repr

/-- `HeartRateSpec`: {kind, metadata, data}. -/
structure HeartRateSpec where
  kind : String
  metadata : Metadata
  data : HeartRateSpec.Data
deriving DecidableEq, Repr

/-- `HeartRateSpec.from_data(data, metadata)`: builds the record literal of
the source — kind "heart_rate", the metadata passed through, and data
{bpm: heart_rate, beat: beat_count, time: {cur: beat_time, prev:
previous_heart_beat_time}}. -/
def HeartRateSpec.from_data (data : HeartRateData) (metadata : Metadata) : HeartRateSpec :=
  { kind := "heart_rate",
    metadata := metadata,
    data :=
      { bpm := data.heart_rate,
        beat := data.beat_count,
        time := { cur := data.beat_time, prev := data.previous_heart_beat_time } } }

/-! ## Concrete driver states used as witnesses and counterexamples -/

/-- A fresh driver on the bulk-endpoint device. -/
def drvGood : USBDriver := USBDriver.init bulkDevice

/-- A fresh driver on the endpoint-less device. -/
def drvBad : USBDriver := USBDriver.init emptyDevice

/-- The driver state after a successful `open` on the bulk device. -/
def openedDriver : USBDriver := (USBDriver.open drvGood).1

/-! ## Helper lemmas -/

/-- `List.find?` returns the first element satisfying the predicate:
everything before the hit fails the predicate. -/
theorem find?_firstSuchThat (p : Endpoint → Bool) :
    ∀ (l : List Endpoint) (e : Endpoint), l.find? p = some e → firstSuchThat p l e := by
  intro l
  induction l with
  | nil => intro e h; simp at h
  | cons a t ih =>
    intro e h
    by_cases hpa : p a = true
    · rw [List.find?_cons_of_pos _ hpa] at h
      injection h with h
      subst h
      exact ⟨hpa, [], t, rfl, by simp⟩
    · rw [List.find?_cons_of_neg _ (by simpa using hpa)] at h
      obtain ⟨hpe, l1, l2, hsplit, hall⟩ := ih e h
      refine ⟨hpe, a :: l1, l2, by rw [hsplit]; rfl, ?_⟩
      intro x hx
      rcases List.mem_cons.mp hx with hxa | hxl
      · subst hxa; simpa using hpa
      · exact hall x hxl

/-! ## Claim theorems -/

/-- Claim C1, as stated, is false: with both arguments non-`None` and
`transceiver.stop()` raising (here with message "boom") while
`usb_driver.close()` succeeds, `teardown_transceiver` does attempt both
steps in order, but the aggregated failure IS propagated to the caller:
the result is `some` error (Python: `raise RuntimeError(error)`), not
`none`. -/
theorem C1_counterexample :
    ¬ (TeardownStep.closeUSB ∈
         (teardown_transceiver (some StepResult.ok)
           (some (StepResult.raises "boom"))).1 ∧
       (teardown_transceiver (some StepResult.ok)
           (some (StepResult.raises "boom"))).1
         = [TeardownStep.stopNode, TeardownStep.closeUSB] ∧
       (teardown_transceiver (some StepResult.ok)
           (some (StepResult.raises "boom"))).2 = none) := by
  decide

/-- Claim C1 (amended): with both arguments non-`None` and
`transceiver.stop()` raising, `teardown_transceiver` still attempts
`usb_driver.close()`, performs the stop before the close, and aggregates
the failures of both steps into one combined error — which it then raises
to the caller as a `RuntimeError` (failures are logged AND propagated). -/
theorem C1_teardown_aggregates_and_raises (m : String) (c : StepResult) :
    (teardown_transceiver (some c) (some (StepResult.raises m))).1
      = [TeardownStep.stopNode, TeardownStep.closeUSB] ∧
    (teardown_transceiver (some c) (some (StepResult.raises m))).2
      = some (("Failed to stop the ANT+ Node: " ++ m) :: closeStepErrors c) := by
  cases c <;> simp [teardown_transceiver, closeStepErrors]

/-- Claim C2, as stated, is false: a device whose interface `(0, 0)` has
an interrupt IN and an interrupt OUT endpoint but no bulk endpoint of
either direction opens successfully — `open` never checks the transfer
type, so it does not fail at all (and no `EndpointNotFound` error exists
in the code). -/
theorem C2_counterexample :
    ¬ ((Interface.hasBulkIn interruptDevice.interface00 = false ∨
        Interface.hasBulkOut interruptDevice.interface00 = false) →
       (USBDriver.open (USBDriver.init interruptDevice)).2 ≠ none) := by
  decide

/-- Claim C2 (amended): for every device whose interface `(0, 0)` lacks an
OUT-direction endpoint or lacks an IN-direction endpoint (of any transfer
type), `open` fails — with an `AttributeError` raised by dereferencing the
`None` endpoint in the debug log call, not with an `EndpointNotFound`
error. -/
theorem C2_open_missing_direction_fails (d : USBDriver)
    (h : d.dev.interface00.endpoints.all (fun e => !(outMatch e)) = true ∨
         d.dev.interface00.endpoints.all (fun e => !(inMatch e)) = true) :
    (USBDriver.open d).2 = some OpenError.attributeErrorNone := by
  rcases h with h | h
  · have hout : find_descriptor d.dev.interface00 outMatch = none := by
      rw [find_descriptor, List.find?_eq_none]
      intro x hx
      have hx' := List.all_eq_true.mp h x hx
      simpa using hx'
    simp [USBDriver.open, hout]
  · have hin : find_descriptor d.dev.interface00 inMatch = none := by
      rw [find_descriptor, List.find?_eq_none]
      intro x hx
      have hx' := List.all_eq_true.mp h x hx
      simpa using hx'
    cases hout : find_descriptor d.dev.interface00 outMatch with
    | none => simp [USBDriver.open, hout]
    | some o => simp [USBDriver.open, hout, hin]

/-- Witness for C2 (amended): the endpoint-less device satisfies the
hypothesis and its `open` raises. -/
theorem C2_open_missing_direction_fails_witness :
    ((USBDriver.init emptyDevice).dev.interface00.endpoints.all
        (fun e => !(outMatch e)) = true) ∧
    (USBDriver.open (USBDriver.init emptyDevice)).2
      = some OpenError.attributeErrorNone :=
  ⟨by decide,
   C2_open_missing_direction_fails (USBDriver.init emptyDevice) (Or.inl (by decide))⟩

/-- Claim C3, as stated, is false: on a device with endpoints of both
directions whose first OUT endpoint is interrupt-type while a bulk OUT
endpoint exists later, `open` selects the interrupt endpoint — the
selected `_out` is not of bulk transfer type and is not the first bulk
OUT endpoint. -/
theorem C3_counterexample :
    mixedDevice.interface00.endpoints.any outMatch = true ∧
    mixedDevice.interface00.endpoints.any inMatch = true ∧
    Interface.hasBulkOut mixedDevice.interface00 = true ∧
    (USBDriver.open (USBDriver.init mixedDevice)).1._out = some intrOutEp ∧
    endpoint_type intrOutEp.bmAttributes ≠ ENDPOINT_TYPE_BULK := by
  decide

/-- Claim C3 (amended): whenever `open` succeeds, the selected `_out` and
`_in` are the FIRST endpoint of their respective direction on interface
`(0, 0)`, regardless of transfer type (no bulk filter is applied). -/
theorem C3_open_selects_first_of_direction (d : USBDriver)
    (h : (USBDriver.open d).2 = none) :
    ∃ o i, (USBDriver.open d).1._out = some o ∧
      (USBDriver.open d).1._in = some i ∧
      firstSuchThat outMatch d.dev.interface00.endpoints o ∧
      firstSuchThat inMatch d.dev.interface00.endpoints i := by
  cases hout : find_descriptor d.dev.interface00 outMatch with
  | none => simp [USBDriver.open, hout] at h
  | some o =>
    cases hin : find_descriptor d.dev.interface00 inMatch with
    | none => simp [USBDriver.open, hout, hin] at h
    | some i =>
      refine ⟨o, i, ?_, ?_, ?_, ?_⟩
      · simp [USBDriver.open, hout, hin]
      · simp [USBDriver.open, hout, hin]
      · exact find?_firstSuchThat outMatch _ o (by simpa [find_descriptor] using hout)
      · exact find?_firstSuchThat inMatch _ i (by simpa [find_descriptor] using hin)

/-- Witness for C3 (amended): `open` succeeds on the bulk device and the
selected endpoints are the first of each direction. -/
theorem C3_open_selects_first_of_direction_witness :
    (USBDriver.open drvGood).2 = none ∧
    ∃ o i, (USBDriver.open drvGood).1._out = some o ∧
      (USBDriver.open drvGood).1._in = some i ∧
      firstSuchThat outMatch drvGood.dev.interface00.endpoints o ∧
      firstSuchThat inMatch drvGood.dev.interface00.endpoints i :=
  ⟨by decide, C3_open_selects_first_of_direction drvGood (by decide)⟩

/-- Claim C4, as stated, is false: after a successful `open`, `close`
leaves the `_in` endpoint slot populated — it releases nothing. -/
theorem C4_counterexample :
    (USBDriver.close openedDriver).1._in = some bulkInEp ∧
    ¬ ((USBDriver.close openedDriver).1._in = none ∧
       (USBDriver.close openedDriver).1._out = none) := by
  decide

/-- Claim C4 (amended): `close` is a logged no-op — it never raises, leaves
the driver state unchanged (hence is idempotent), and is callable in any
state, including on a never-opened driver and after a partially failed
`open`; but it does not release the endpoint slots or any USB resource. -/
theorem C4_close_noop_idempotent (d : USBDriver) :
    (USBDriver.close d).2 = none ∧
    (USBDriver.close d).1 = d ∧
    USBDriver.close (USBDriver.close d).1 = USBDriver.close d ∧
    (USBDriver.close (USBDriver.init d.dev)).2 = none ∧
    (USBDriver.close (USBDriver.open d).1).2 = none :=
  ⟨rfl, rfl, rfl, rfl, rfl⟩

/-- Claim C5: `HeartRateSpec.from_data d m` carries the "heart_rate" kind
tag, passes the metadata (and its time fields) through unchanged, and maps
the heart-rate data fields to {bpm, beat, time.cur, time.prev}. -/
theorem C5_from_data_fields (d : HeartRateData) (m : Metadata) :
    (HeartRateSpec.from_data d m).kind = "heart_rate" ∧
    (HeartRateSpec.from_data d m).metadata = m ∧
    (HeartRateSpec.from_data d m).metadata.time.unit = m.time.unit ∧
    (HeartRateSpec.from_data d m).metadata.time.datum = m.time.datum ∧
    (HeartRateSpec.from_data d m).metadata.time.diff = m.time.diff ∧
    (HeartRateSpec.from_data d m).data.bpm = d.heart_rate ∧
    (HeartRateSpec.from_data d m).data.beat = d.beat_count ∧
    (HeartRateSpec.from_data d m).data.time.cur = d.beat_time ∧
    (HeartRateSpec.from_data d m).data.time.prev = d.previous_heart_beat_time :=
  ⟨rfl, rfl, rfl, rfl, rfl, rfl, rfl, rfl, rfl⟩

/-- Claim C6: pump construction opens the transport; on a successful open
it starts exactly one worker thread and the pump is running; if the open
fails no worker thread is started. -/
theorem C6_pump_construction (drv : USBDriver) :
    ((USBDriver.open drv).2 = none →
      ∃ st, AntTransceiverDevice.init drv = (Except.ok st, 1) ∧ st.running = true) ∧
    ((USBDriver.open drv).2 ≠ none → (AntTransceiverDevice.init drv).2 = 0) := by
  rcases hopen : USBDriver.open drv with ⟨d', e⟩
  cases e with
  | none =>
    constructor
    · intro _
      exact ⟨{ driver := d', running := true, resetSent := true },
             by simp [AntTransceiverDevice.init, hopen], rfl⟩
    · intro h
      simp at h
  | some err =>
    constructor
    · intro h
      simp at h
    · intro _
      simp [AntTransceiverDevice.init, hopen]

/-- Witness for C6: `open` succeeds on the bulk device (one worker thread,
running state) and fails on the endpoint-less device (zero worker
threads). -/
theorem C6_pump_construction_witness :
    (∃ st, AntTransceiverDevice.init drvGood = (Except.ok st, 1) ∧ st.running = true) ∧
    (AntTransceiverDevice.init drvBad).2 = 0 :=
  ⟨(C6_pump_construction drvGood).1 (by decide),
   (C6_pump_construction drvBad).2 (by decide)⟩

/-- Claim C7: whenever `setup_transceiver` returns the transceiver, its
trace contains exactly one `set_network_key` call, every such call uses
slot 0 (within the valid 0–7 range), and the call happens strictly before
the return. -/
theorem C7_network_key_once (f dr dv k : Bool)
    (h : (setup_transceiver f dr dv k).2 = true) :
    (setup_transceiver f dr dv k).1.countP isSetKey = 1 ∧
    (setup_transceiver f dr dv k).1.all setKeySlotValid = true ∧
    ∃ i j : Fin (setup_transceiver f dr dv k).1.length, i < j ∧
      (setup_transceiver f dr dv k).1.get i = SetupEvent.setNetworkKey 0 ∧
      (setup_transceiver f dr dv k).1.get j = SetupEvent.ret := by
  revert h
  cases f <;> cases dr <;> cases dv <;> cases k <;> decide

/-- Witness for C7: the all-steps-succeed run returns the transceiver and
satisfies the key-setting properties. -/
theorem C7_network_key_once_witness :
    (setup_transceiver true true true true).2 = true ∧
    ((setup_transceiver true true true true).1.countP isSetKey = 1 ∧
     (setup_transceiver true true true true).1.all setKeySlotValid = true ∧
     ∃ i j : Fin (setup_transceiver true true true true).1.length, i < j ∧
       (setup_transceiver true true true true).1.get i = SetupEvent.setNetworkKey 0 ∧
       (setup_transceiver true true true true).1.get j = SetupEvent.ret) :=
  ⟨by decide, C7_network_key_once true true true true (by decide)⟩

/-- Claim C8: every `AntTransceiver` is constructed with `max_channels = 8`
and `max_networks = 8`, and the node's sole source-defined operation (the
`transceiver` accessor) leaves the node state — hence both bounds —
unchanged. -/
theorem C8_node_bounds (ant : AntTransceiverDevice) (n : AntTransceiver) :
    (AntTransceiver.init ant).max_channels = 8 ∧
    (AntTransceiver.init ant).max_networks = 8 ∧
    (AntTransceiver.transceiver n).2 = n :=
  ⟨rfl, rfl, rfl⟩

/-- Claim C9: `setup_scanner` has no return statement on its success path,
so it returns `None`; feeding that result to `teardown_scanner` returns
immediately without error. -/
theorem C9_setup_scanner_returns_none (t : AntTransceiver)
    (cb_found cb_update : Bool) (closeBehaviour : StepResult) :
    (setup_scanner t cb_found cb_update closeBehaviour).2 = none ∧
    teardown_scanner (setup_scanner t cb_found cb_update closeBehaviour).2
      = Except.ok () :=
  ⟨rfl, rfl⟩

/-- Claim C10: `USBDriver.find` returns `True` for every keyword-argument
set, and the USB device object is injected at construction (`__init__`
stores it directly in `dev`). -/
theorem C10_find_bypassed (d : USBDriver) (kwargs : List (String × Nat))
    (device : Device) :
    USBDriver.find d kwargs = true ∧ (USBDriver.init device).dev = device :=
  ⟨rfl, rfl⟩

end Ant
